import Mathlib

/-!
Verification development for the Narrate TTS gateway (`app.py`).

The Python source is shallowly embedded: Python dicts become association
lists (insertion-ordered, like Python dicts), the voices metadata JSON file
and the uploads directory become explicit `RegState` components, raised
`HTTPException`s become `Except` / explicit error results, and downstream
HTTP traffic becomes a stub function `DownstreamCall → HttpOutcome` plus an
explicit log of the calls issued.  The aliasing behaviour of the global
`PROVIDERS` table (shallow `dict.copy()` in `get_providers`) is modelled by
a small heap of Python dict objects.
-/

namespace Narrate

/-! ### Python value helpers -/

/-- Raw byte payloads (`bytes` in Python) are modelled as lists of byte
values; only length and equality matter to the code. -/
abbrev Bytes := List Nat

/-- Python truthiness of an optional string: `None` and `""` are falsy. -/
def pyTruthy : Option String → Bool
  | none => false
  | some s => !(s = "")

/-- Python `a or b` for two optional strings. -/
def pyOr (a b : Option String) : Option String :=
  if pyTruthy a then a else b

/-- Python `a or d` where `a : str | None` and `d : str`. -/
def pyOrD (a : Option String) (d : String) : String :=
  match a with
  | none => d
  | some s => if s = "" then d else s

/-- Dict lookup on an insertion-ordered association list. -/
def dget {α β : Type} [DecidableEq α] (k : α) : List (α × β) → Option β
  | [] => none
  | (k', v) :: rest => if k' = k then some v else dget k rest

/-- Python `d[k] = v`: update in place if the key exists, else append. -/
def dset {α β : Type} [DecidableEq α] (k : α) (v : β) : List (α × β) → List (α × β)
  | [] => [(k, v)]
  | (k', v') :: rest => if k' = k then (k, v) :: rest else (k', v') :: dset k v rest

/-- Python `del d[k]` (also models `Path.unlink` on the uploads dir). -/
def dremove {α β : Type} [DecidableEq α] (k : α) (l : List (α × β)) : List (α × β) :=
  l.filter (fun p => ¬ (p.1 = k))

/-- Python `s.strip()`: drop leading and trailing whitespace.  Implemented
on the character list so that it evaluates by kernel reduction. -/
def pyStrip (s : String) : String :=
  String.mk (((s.data.dropWhile Char.isWhitespace).reverse.dropWhile
    Char.isWhitespace).reverse)

/-- Python `s.startswith(pre)`, on the character lists. -/
def pyStartsWith (s pre : String) : Bool := pre.data.isPrefixOf s.data

/-- Python `s.lower()`, on the character lists. -/
def pyLower (s : String) : String := String.mk (s.data.map Char.toLower)

/-- `"." in s` for a Python string. -/
def containsDot (s : String) : Bool := s.data.contains '.'

/-- Python `s.rsplit(".", 1)[-1]`: the substring after the last dot
(the whole string when no dot is present). -/
def afterLastDot (s : String) : String :=
  String.mk ((s.data.reverse.takeWhile (fun c => c ≠ '.')).reverse)

/-! ### Errors and registry state -/

/-- A raised `fastapi.HTTPException`. -/
structure HTTPError where
  status : Nat
  detail : String
  deriving Repr, DecidableEq

/-- One value of the voices metadata JSON object (`voices.json`). -/
structure VoiceEntry where
  name : String
  transcript : String
  filename : String
  original_filename : Option String
  deriving Repr, DecidableEq

/-- The metadata store: `voice_id → entry`, insertion ordered. -/
abbrev Metadata := List (String × VoiceEntry)

/-- Files in the uploads directory: stored filename → byte content. -/
abbrev Disk := List (String × Bytes)

/-- Persistent state of the Voice Registry: `voices.json` plus the files of
the uploads directory. -/
structure RegState where
  metadata : Metadata
  disk : Disk
  deriving Repr, DecidableEq

/-- `MAX_UPLOAD_SIZE = 25 * 1024 * 1024` from `app.py`. -/
def MAX_UPLOAD_SIZE : Nat := 25 * 1024 * 1024

/-! ### Upload -/

/-- A `fastapi.UploadFile`: declared content type, declared filename and
the byte content. -/
structure UploadFile where
  content_type : Option String
  filename : Option String
  content : Bytes
  deriving Repr, DecidableEq

/-- JSON body returned by a successful `POST /api/upload-voice`. -/
structure UploadResponse where
  voice_id : String
  name : String
  filename : String
  transcript : String
  deriving Repr, DecidableEq

/-- The content-type validation of `upload_voice`:
`file.content_type and file.content_type.startswith("audio/")`. -/
def ctOk (ct : Option String) : Bool :=
  match ct with
  | none => false
  | some s => pyStartsWith s "audio/"

/-- Extension choice of `upload_voice` (`app.py` lines 205-212):
`ext = "wav"`, overridden by content type `audio/mpeg → mp3`,
`audio/mp4 → m4a`, else by the lowercased last-dot suffix of a declared
filename that contains a dot. -/
def extFor (file : UploadFile) : String :=
  if file.content_type = some "audio/mpeg" then "mp3"
  else if file.content_type = some "audio/mp4" then "m4a"
  else
    match file.filename with
    | some fn => if fn ≠ "" ∧ containsDot fn then pyLower (afterLastDot fn) else "wav"
    | none => "wav"

/-- `transcribe_audio` from `app.py`: fails when mlx-whisper is not
installed, else returns the whisper output (`result.get("text","")`)
stripped.  `whisperText` is the external transcriber's raw output for the
stored file. -/
def transcribe_audio (hasWhisper : Bool) (whisperText : String) : Except HTTPError String :=
  if !hasWhisper then
    .error ⟨400, "Transcript required. Install mlx-whisper for auto-transcription: uv pip install mlx-whisper"⟩
  else
    .ok (pyStrip whisperText)

/-- `upload_voice` from `app.py`.  `voice_id` stands for the generated
`uuid.uuid4().hex[:12]`; `whisper` is the external transcription capability
(raw text per stored filename).  Returns the final registry state (the
audio file is written to disk *before* transcription is attempted, so a
transcription failure leaves the file behind) together with the response
or the raised `HTTPException`. -/
def upload_voice (hasWhisper : Bool) (whisper : String → String) (voice_id : String)
    (st : RegState) (file : UploadFile) (name : String) (transcript : String) :
    RegState × Except HTTPError UploadResponse :=
  if !(ctOk file.content_type) then
    (st, .error ⟨400, "File must be an audio file"⟩)
  else if file.content.length > MAX_UPLOAD_SIZE then
    (st, .error ⟨400, "File too large (max 25 MB)"⟩)
  else
    let ext := extFor file
    let fname := voice_id ++ "." ++ ext
    let st1 : RegState := { st with disk := dset fname file.content st.disk }
    let t := pyStrip transcript
    match (if t = "" then transcribe_audio hasWhisper (whisper fname) else .ok t) with
    | .error e => (st1, .error e)
    | .ok t' =>
        let entry : VoiceEntry := ⟨name, t', fname, file.filename⟩
        (⟨dset voice_id entry st1.metadata, st1.disk⟩, .ok ⟨voice_id, name, fname, t'⟩)

/-! ### List and delete -/

/-- One element of the `GET /api/voices` response. -/
structure VoiceListItem where
  id : String
  name : String
  transcript : String
  filename : String
  deriving Repr, DecidableEq

/-- `list_voices` from `app.py`. -/
def list_voices (st : RegState) : List VoiceListItem :=
  st.metadata.map (fun p => ⟨p.1, p.2.name, p.2.transcript, p.2.filename⟩)

/-- `delete_voice` from `app.py`: 404 when the id is absent; otherwise
unlink the audio file if it exists, drop the metadata record, persist. -/
def delete_voice (st : RegState) (voice_id : String) : RegState × Except HTTPError String :=
  match dget voice_id st.metadata with
  | none => (st, .error ⟨404, "Voice not found"⟩)
  | some info =>
      (⟨dremove voice_id st.metadata, dremove info.filename st.disk⟩, .ok voice_id)

/-! ### The `PROVIDERS` table as a heap of Python dict objects

`get_providers` does `config.copy()` (a *shallow* copy) and then assigns the
`"voices"` key of one copy.  Whether this mutates the static table is an
aliasing question, so the table is modelled as a heap: numeric addresses to
dict objects, with nested dicts held by reference. -/

/-- A Python value stored in one of the provider dicts. -/
inductive PyVal where
  | str : String → PyVal
  | bool : Bool → PyVal
  | ref : Nat → PyVal
  deriving Repr, DecidableEq

/-- A Python dict object (string keys, insertion ordered). -/
abbrev PyDict := List (String × PyVal)

/-- The heap: address → dict object. -/
abbrev Heap := List (Nat × PyDict)

/-- Dereference an address (the addresses used are always allocated). -/
def heapGet (h : Heap) (a : Nat) : PyDict := (dget a h).getD []

/-- Overwrite the object at an address. -/
def heapSet (h : Heap) (a : Nat) (d : PyDict) : Heap := dset a d h

/-- An address not yet used by any object of the heap. -/
def fresh (h : Heap) : Nat := (h.map Prod.fst).foldr max 0 + 1

/-- `PROVIDERS["mlx-audio"]["models"]` (heap address 2). -/
def mlxAudioModels : PyDict :=
  [("mlx-community/Spark-TTS-0.5B-bf16", .str "Spark TTS 0.5B (Best quality, EN/ZH)"),
   ("mlx-community/Spark-TTS-0.5B-8bit", .str "Spark TTS 0.5B 8-bit (Faster, less memory)")]

/-- `PROVIDERS["elevenlabs"]["models"]` (heap address 5). -/
def elevenlabsModels : PyDict :=
  [("eleven_flash_v2_5", .str "Flash v2.5 (Low latency)"),
   ("eleven_multilingual_v2", .str "Multilingual v2 (Best quality)"),
   ("eleven_turbo_v2_5", .str "Turbo v2.5 (Balanced)")]

/-- `PROVIDERS["elevenlabs"]["voices"]` (heap address 6). -/
def elevenlabsVoices : PyDict :=
  [("21m00Tcm4TlvDq8ikWAM", .str "Rachel"), ("EXAVITQu4vr4xnSDxMaL", .str "Bella"),
   ("ErXwobaYiN019PkySvjV", .str "Antoni"), ("VR6AewLTigWG4xSOukaG", .str "Arnold"),
   ("pNInz6obpgDQGcFmaJgB", .str "Adam")]

/-- `PROVIDERS["openai"]["models"]` (heap address 8). -/
def openaiModels : PyDict :=
  [("gpt-4o-mini-tts", .str "GPT-4o Mini TTS (Best)"),
   ("tts-1", .str "TTS-1 (Fast)"), ("tts-1-hd", .str "TTS-1 HD (High quality)")]

/-- `PROVIDERS["openai"]["voices"]` (heap address 9). -/
def openaiVoices : PyDict :=
  [("alloy", .str "Alloy"), ("ash", .str "Ash"), ("ballad", .str "Ballad"),
   ("coral", .str "Coral"), ("echo", .str "Echo"), ("fable", .str "Fable"),
   ("nova", .str "Nova"), ("onyx", .str "Onyx"), ("sage", .str "Sage"),
   ("shimmer", .str "Shimmer")]

/-- `PROVIDERS["mlx-voice-clone"]["models"]` (heap address 11). -/
def cloneModels : PyDict :=
  [("mlx-community/Qwen3-TTS-12Hz-0.6B-Base-bf16", .str "Qwen3-TTS 0.6B (Fast)"),
   ("mlx-community/Qwen3-TTS-12Hz-1.7B-Base-bf16", .str "Qwen3-TTS 1.7B (Better quality)")]

/-- The root `PROVIDERS` dict object (heap address 0): each value is a
reference to a provider config dict. -/
def providersRoot : PyDict :=
  [("mlx-audio", .ref 1), ("elevenlabs", .ref 4), ("openai", .ref 7),
   ("mlx-voice-clone", .ref 10)]

/-- The static `PROVIDERS` table of `app.py` as an object heap.  Address 0
is the root dict; 1/4/7/10 are the four config dicts; 2,3,5,6,8,9,11,12 are
the nested `models`/`voices` dicts.  Addresses 3 and 12 are the statically
empty voices dicts of `mlx-audio` and `mlx-voice-clone`. -/
def providersHeap : Heap :=
  [(0, providersRoot),
   (1, [("name", .str "MLX-Audio (Local)"), ("description", .str "Local TTS on Apple Silicon"),
        ("requires_api_key", .bool false), ("models", .ref 2), ("voices", .ref 3)]),
   (2, mlxAudioModels), (3, []),
   (4, [("name", .str "ElevenLabs"), ("description", .str "Cloud TTS with natural voices"),
        ("requires_api_key", .bool true), ("models", .ref 5), ("voices", .ref 6)]),
   (5, elevenlabsModels), (6, elevenlabsVoices),
   (7, [("name", .str "OpenAI"), ("description", .str "Cloud TTS with GPT-4o voices"),
        ("requires_api_key", .bool true), ("models", .ref 8), ("voices", .ref 9)]),
   (8, openaiModels), (9, openaiVoices),
   (10, [("name", .str "MLX Voice Clone (Local)"),
         ("description", .str "Clone any voice with ~3-10 seconds of audio"),
         ("requires_api_key", .bool false), ("requires_voice_upload", .bool true),
         ("models", .ref 11), ("voices", .ref 12)]),
   (11, cloneModels), (12, [])]

/-- The loop of `get_providers`: `providers_response[provider_id] =
config.copy()` for each entry of the root dict.  A shallow copy allocates a
new dict object with the same entries (nested refs are shared). -/
def copyLoop (h : Heap) : List (String × PyVal) → Heap × List (String × PyVal)
  | [] => (h, [])
  | (pid, v) :: rest =>
    match v with
    | .ref a =>
        let na := fresh h
        let h' := (na, heapGet h a) :: h
        let r := copyLoop h' rest
        (r.1, (pid, .ref na) :: r.2)
    | other =>
        let r := copyLoop h rest
        (r.1, (pid, other) :: r.2)

/-- The voices dict comprehension of `get_providers`:
`{vid: v["name"] for vid, v in voices_metadata.items()}`. -/
def voicesSnapshot (md : Metadata) : PyDict :=
  md.map (fun p => (p.1, PyVal.str p.2.name))

/-- `get_providers` from `app.py`, acting on the current heap `h` (the
static table lives at address 0) and the current metadata store: copy every
config shallowly, then assign the fresh voices snapshot to the
`mlx-voice-clone` copy's `"voices"` key.  Returns the new heap and the
`providers_response` dict.  (The fallback arm models the impossible
`KeyError`-free path only: the root dict always has an `mlx-voice-clone`
reference.) -/
def get_providers (h : Heap) (md : Metadata) : Heap × List (String × PyVal) :=
  let r := copyLoop h (heapGet h 0)
  let va := fresh r.1
  let h2 := (va, voicesSnapshot md) :: r.1
  match dget "mlx-voice-clone" r.2 with
  | some (.ref ca) => (heapSet h2 ca (dset "voices" (PyVal.ref va) (heapGet h2 ca)), r.2)
  | _ => (h2, r.2)

/-- Extract the cloning provider's voices dict from a `get_providers`
result, following the references into the final heap. -/
def cloneVoicesOf (r : Heap × List (String × PyVal)) : Option PyDict :=
  match dget "mlx-voice-clone" r.2 with
  | some (.ref ca) =>
      match dget "voices" (heapGet r.1 ca) with
      | some (.ref va) => some (heapGet r.1 va)
      | _ => none
  | _ => none

/-! ### Downstream HTTP and the provider dispatcher -/

/-- `MLX_AUDIO_URL` default (`os.getenv("MLX_AUDIO_URL", "http://127.0.0.1:8000")`). -/
def MLX_AUDIO_URL : String := "http://127.0.0.1:8000"

/-- One outgoing `httpx` POST issued by a generate function. -/
structure DownstreamCall where
  url : String
  headers : List (String × String)
  jsonBody : List (String × String)
  timeoutSecs : Nat
  deriving Repr, DecidableEq

/-- Behaviour of the downstream service for one call: a response (status,
`response.content`, `response.text`), a timeout (`httpx.TimeoutException`)
or a connection failure (`httpx.ConnectError`). -/
inductive HttpOutcome where
  | resp (status : Nat) (content : Bytes) (text : String)
  | timeout
  | connectError
  deriving Repr, DecidableEq

/-- Result of a generate function: returned bytes, a raised
`HTTPException`, or a propagating network exception. -/
inductive CallResult (α : Type) where
  | ok : α → CallResult α
  | httpError : HTTPError → CallResult α
  | timeout : CallResult α
  | connectError : CallResult α
  deriving Repr, DecidableEq

/-- `generate_mlx_audio` from `app.py`: POST to the local server; non-200
raises with the downstream status and text. The second component logs the
downstream calls issued. -/
def generate_mlx_audio (http : DownstreamCall → HttpOutcome) (text model : String)
    (voice : Option String) : CallResult Bytes × List DownstreamCall :=
  let voice_id := pyOrD voice "af_heart"
  let call : DownstreamCall :=
    ⟨MLX_AUDIO_URL ++ "/v1/audio/speech", [],
     [("model", model), ("input", text), ("voice", voice_id)], 120⟩
  match http call with
  | .resp code content text' =>
      (if code ≠ 200 then .httpError ⟨code, "MLX-Audio error: " ++ text'⟩
       else .ok content, [call])
  | .timeout => (.timeout, [call])
  | .connectError => (.connectError, [call])

/-- `generate_elevenlabs` from `app.py`: missing key raises before any
call; otherwise POST to the per-voice URL with the vendor header. -/
def generate_elevenlabs (http : DownstreamCall → HttpOutcome) (text model : String)
    (voice : Option String) (api_key : String) : CallResult Bytes × List DownstreamCall :=
  if api_key = "" then (.httpError ⟨400, "ElevenLabs API key required"⟩, [])
  else
    let voice_id := pyOrD voice "21m00Tcm4TlvDq8ikWAM"
    let call : DownstreamCall :=
      ⟨"https://api.elevenlabs.io/v1/text-to-speech/" ++ voice_id,
       [("xi-api-key", api_key), ("Content-Type", "application/json")],
       [("text", text), ("model_id", model)], 120⟩
    match http call with
    | .resp code content text' =>
        (if code ≠ 200 then .httpError ⟨code, "ElevenLabs error: " ++ text'⟩
         else .ok content, [call])
    | .timeout => (.timeout, [call])
    | .connectError => (.connectError, [call])

/-- `generate_openai` from `app.py`: missing key raises before any call;
otherwise POST with a bearer header and `response_format=wav`. -/
def generate_openai (http : DownstreamCall → HttpOutcome) (text model : String)
    (voice : Option String) (api_key : String) : CallResult Bytes × List DownstreamCall :=
  if api_key = "" then (.httpError ⟨400, "OpenAI API key required"⟩, [])
  else
    let voice_id := pyOrD voice "alloy"
    let call : DownstreamCall :=
      ⟨"https://api.openai.com/v1/audio/speech",
       [("Authorization", "Bearer " ++ api_key), ("Content-Type", "application/json")],
       [("model", model), ("input", text), ("voice", voice_id), ("response_format", "wav")], 120⟩
    match http call with
    | .resp code content text' =>
        (if code ≠ 200 then .httpError ⟨code, "OpenAI error: " ++ text'⟩
         else .ok content, [call])
    | .timeout => (.timeout, [call])
    | .connectError => (.connectError, [call])

/-- `generate_mlx_voice_clone` from `app.py`: resolves the reference voice
in the registry (missing id 400, unknown id 404, missing file 404, empty
transcript 400 — all before any downstream call), then POSTs with the
reference audio path and transcript, on a 300 s timeout. -/
def generate_mlx_voice_clone (st : RegState) (http : DownstreamCall → HttpOutcome)
    (text model : String) (voice_id : Option String) :
    CallResult Bytes × List DownstreamCall :=
  if !(pyTruthy voice_id) then (.httpError ⟨400, "Voice ID required for voice cloning"⟩, [])
  else
    let vid := voice_id.getD ""
    match dget vid st.metadata with
    | none => (.httpError ⟨404, "Voice not found"⟩, [])
    | some info =>
        if (dget info.filename st.disk).isNone then
          (.httpError ⟨404, "Voice audio file not found"⟩, [])
        else if info.transcript = "" then
          (.httpError ⟨400, "Voice transcript is required for cloning"⟩, [])
        else
          let call : DownstreamCall :=
            ⟨MLX_AUDIO_URL ++ "/v1/audio/speech", [],
             [("model", model), ("input", text),
              ("ref_audio", "uploads/" ++ info.filename), ("ref_text", info.transcript)], 300⟩
          match http call with
          | .resp code content text' =>
              (if code ≠ 200 then .httpError ⟨code, "MLX-Audio voice clone error: " ++ text'⟩
               else .ok content, [call])
          | .timeout => (.timeout, [call])
          | .connectError => (.connectError, [call])

/-- Body of `POST /api/tts`. -/
structure TTSRequest where
  text : String
  provider : String := "mlx-audio"
  model : String := "mlx-community/Spark-TTS-0.5B-bf16"
  voice : Option String := none
  api_key : Option String := none
  voice_id : Option String := none
  deriving Repr, DecidableEq

/-- Process-configured credentials (`os.getenv(..., "")`). -/
structure Env where
  ELEVENLABS_API_KEY : String
  OPENAI_API_KEY : String
  deriving Repr, DecidableEq

/-- A successful `/api/tts` response: the `StreamingResponse` (default
status 200) with the audio bytes and declared media type. -/
structure TTSSuccess where
  status : Nat
  body : Bytes
  media_type : String
  ext : String
  deriving Repr, DecidableEq

/-- The shared tail of `text_to_speech`: wrap a branch result into the
response, mapping `httpx.TimeoutException` to 504 and `httpx.ConnectError`
to 503 (the `except` clauses of `app.py` lines 452-458). -/
def finishTTS (provider mt ext : String) (r : CallResult Bytes × List DownstreamCall) :
    Except HTTPError TTSSuccess × List DownstreamCall :=
  match r.1 with
  | .ok b => (.ok ⟨200, b, mt, ext⟩, r.2)
  | .httpError e => (.error e, r.2)
  | .timeout => (.error ⟨504, "TTS generation timed out"⟩, r.2)
  | .connectError =>
      (.error ⟨503, "Cannot connect to " ++ provider ++ ". Check your connection or API settings."⟩, r.2)

/-- `text_to_speech` from `app.py`: empty-text check, membership check
against the `PROVIDERS` dict (address 0 of the heap), then the per-provider
branches.  Returns the response or raised error, plus the downstream calls
issued. -/
def text_to_speech (h : Heap) (env : Env) (st : RegState)
    (http : DownstreamCall → HttpOutcome) (req : TTSRequest) :
    Except HTTPError TTSSuccess × List DownstreamCall :=
  if pyStrip req.text = "" then (.error ⟨400, "Text cannot be empty"⟩, [])
  else if (dget req.provider (heapGet h 0)).isNone then
    (.error ⟨400, "Unknown provider: " ++ req.provider⟩, [])
  else if req.provider = "mlx-audio" then
    finishTTS req.provider "audio/mpeg" "mp3"
      ( generate_mlx_audio http req.text req.model req.voice)
  else if req.provider = "elevenlabs" then
    finishTTS req.provider "audio/mpeg" "mp3"
      (generate_elevenlabs http req.text req.model req.voice
        (pyOrD req.api_key env.ELEVENLABS_API_KEY))
  else if req.provider = "openai" then
    finishTTS req.provider "audio/wav" "wav"
      (generate_openai http req.text req.model req.voice
        (pyOrD req.api_key env.OPENAI_API_KEY))
  else if req.provider = "mlx-voice-clone" then
    finishTTS req.provider "audio/mpeg" "mp3"
      ( generate_mlx_voice_clone st http req.text req.model (pyOr req.voice_id req.voice))
  else (.error ⟨400, "Unsupported provider: " ++ req.provider⟩, [])

/-! ### Spec-side definitions and the operation sequence model -/

/-- The extension rule as the spec states it: "declared content type
audio/mpeg gives mp3; else audio/mp4 gives m4a; else, if the declared
filename contains a dot, the lowercased substring after its last dot; else
the default wav".  Written from the spec's words, to be compared with
`extFor` (written from the code). -/
def specExt (file : UploadFile) : String :=
  if file.content_type = some "audio/mpeg" then "mp3"
  else if file.content_type = some "audio/mp4" then "m4a"
  else
    match file.filename with
    | some fn => if containsDot fn then pyLower (afterLastDot fn) else "wav"
    | none => "wav"

/-- One operation of an interleaving of catalog reads, uploads and
deletes (for the frame property of the static `PROVIDERS` table). -/
inductive Op where
  | readCatalog : Op
  | doUpload (hasWhisper : Bool) (whisper : String → String) (vid : String)
      (file : UploadFile) (name transcript : String) : Op
  | doDelete (vid : String) : Op

/-- Whole-process state: the dict-object heap and the registry state. -/
structure Sys where
  heap : Heap
  reg : RegState

/-- Effect of one operation on the process state: catalog reads act on the
heap, uploads and deletes on the registry. -/
def runOp (s : Sys) : Op → Sys
  | .readCatalog => ⟨(get_providers s.heap s.reg.metadata).1, s.reg⟩
  | .doUpload hw wh v f n t => ⟨s.heap, (upload_voice hw wh v s.reg f n t).1⟩
  | .doDelete v => ⟨s.heap, (delete_voice s.reg v).1⟩

/-- Run a sequence of interleaved operations. -/
def runOps (s : Sys) (ops : List Op) : Sys := ops.foldl runOp s

/-! ### Association list and heap lemmas -/

theorem dget_dset_same {α β : Type} [DecidableEq α] (k : α) (v : β) (l : List (α × β)) :
    dget k (dset k v l) = some v := by
  induction l with
  | nil => simp [dset, dget]
  | cons p rest ih =>
      obtain ⟨k', v'⟩ := p
      by_cases hk : k' = k
      · simp [dset, hk, dget]
      · simp [dset, hk, dget, ih]

theorem dget_dset_ne {α β : Type} [DecidableEq α] {a k : α} (v : β) (l : List (α × β))
    (hne : a ≠ k) : dget a (dset k v l) = dget a l := by
  have hka : ¬ (k = a) := fun hcontra => hne hcontra.symm
  induction l with
  | nil => simp [dset, dget, hka]
  | cons p rest ih =>
      obtain ⟨k', v'⟩ := p
      by_cases hk : k' = k
      · have h1 : dset k v ((k', v') :: rest) = (k, v) :: rest := by simp [dset, hk]
        have hk'a : ¬ (k' = a) := by rw [hk]; exact hka
        rw [h1]
        simp [dget, hka, hk'a]
      · have h1 : dset k v ((k', v') :: rest) = (k', v') :: dset k v rest := by
          simp [dset, hk]
        rw [h1]
        by_cases hk'a : k' = a
        · simp [dget, hk'a]
        · simp [dget, hk'a, ih]

theorem dget_dremove_same {α β : Type} [DecidableEq α] (k : α) (l : List (α × β)) :
    dget k (dremove k l) = none := by
  induction l with
  | nil => simp [dremove, dget]
  | cons p rest ih =>
      obtain ⟨k', v'⟩ := p
      by_cases hk : k' = k
      · simpa [dremove, hk] using ih
      · simpa [dremove, hk, dget] using ih

theorem dget_dremove_ne {α β : Type} [DecidableEq α] {a k : α} (l : List (α × β))
    (hne : a ≠ k) : dget a (dremove k l) = dget a l := by
  induction l with
  | nil => simp [dremove, dget]
  | cons p rest ih =>
      obtain ⟨k', v'⟩ := p
      by_cases hk : k' = k
      · have h1 : dremove k ((k', v') :: rest) = dremove k rest := by simp [dremove, hk]
        have hk'a : ¬ (k' = a) := by
          intro hcontra
          exact hne (hcontra ▸ hk)
        rw [h1, ih]
        simp [dget, hk'a]
      · have h1 : dremove k ((k', v') :: rest) = (k', v') :: dremove k rest := by
          simp [dremove, hk]
        rw [h1]
        by_cases hk'a : k' = a
        · simp [dget, hk'a]
        · simp [dget, hk'a, ih]

theorem lt_fresh_of_isSome : ∀ {h : Heap} {a : Nat}, (dget a h).isSome → a < fresh h := by
  intro h
  induction h with
  | nil => intro a hs; simp [dget] at hs
  | cons p rest ih =>
      intro a hs
      obtain ⟨b, d⟩ := p
      by_cases hb : b = a
      · subst hb
        have : b ≤ (rest.map Prod.fst).foldr max 0 ⊔ b := le_max_right _ _
        simp [fresh]
        omega
      · have hrest : (dget a rest).isSome := by simpa [dget, hb] using hs
        have := ih hrest
        simp [fresh] at this ⊢
        omega

theorem dget_fresh_none (h : Heap) : dget (fresh h) h = none := by
  cases hc : dget (fresh h) h with
  | none => rfl
  | some d =>
      have : fresh h < fresh h := lt_fresh_of_isSome (by simp [hc])
      omega

theorem copyLoop_frame : ∀ (l : List (String × PyVal)) (h : Heap) (a : Nat),
    (dget a h).isSome → dget a (copyLoop h l).1 = dget a h := by
  intro l
  induction l with
  | nil => intro h a hs; simp [copyLoop]
  | cons p rest ih =>
      intro h a hs
      obtain ⟨pid, v⟩ := p
      cases v with
      | ref b =>
          have hlt : a < fresh h := lt_fresh_of_isSome hs
          have hne : ¬ (fresh h = a) := by omega
          have h1 : dget a ((fresh h, heapGet h b) :: h) = dget a h := by
            simp [dget, hne]
          have hs' : (dget a ((fresh h, heapGet h b) :: h)).isSome := by
            rw [h1]; exact hs
          simp only [copyLoop]
          rw [ih _ _ hs', h1]
      | str s =>
          simp only [copyLoop]
          exact ih h a hs
      | bool b =>
          simp only [copyLoop]
          exact ih h a hs

theorem copyLoop_ref_spec : ∀ (l : List (String × PyVal)) (h : Heap) (pid : String) (ca : Nat),
    dget pid (copyLoop h l).2 = some (.ref ca) →
    dget ca h = none ∧ (dget ca (copyLoop h l).1).isSome := by
  intro l
  induction l with
  | nil => intro h pid ca hget; simp [copyLoop, dget] at hget
  | cons p rest ih =>
      intro h pid ca hget
      obtain ⟨pid', v⟩ := p
      cases v with
      | ref b =>
          simp only [copyLoop, dget] at hget
          by_cases hp : pid' = pid
          · rw [if_pos hp] at hget
            have hca : ca = fresh h := by
              cases hget; rfl
            subst hca
            refine ⟨dget_fresh_none h, ?_⟩
            have hsome : (dget (fresh h) ((fresh h, heapGet h b) :: h)).isSome := by
              simp [dget]
            simpa only [copyLoop] using
              (by rw [copyLoop_frame rest _ _ hsome]; exact hsome :
                (dget (fresh h) (copyLoop ((fresh h, heapGet h b) :: h) rest).1).isSome)
          · rw [if_neg hp] at hget
            have hih := ih ((fresh h, heapGet h b) :: h) pid ca hget
            have hnone : dget ca ((fresh h, heapGet h b) :: h) = none := hih.1
            have hcane : ¬ (fresh h = ca) := by
              intro hcontra
              rw [← hcontra] at hnone
              simp [dget] at hnone
            have : dget ca h = none := by
              have := hnone
              simp [dget, hcane] at this
              exact this
            refine ⟨this, ?_⟩
            simpa only [copyLoop] using hih.2
      | str s =>
          simp only [copyLoop, dget] at hget
          by_cases hp : pid' = pid
          · rw [if_pos hp] at hget
            cases hget
          · rw [if_neg hp] at hget
            have hih := ih h pid ca hget
            exact ⟨hih.1, by simpa only [copyLoop] using hih.2⟩
      | bool b =>
          simp only [copyLoop, dget] at hget
          by_cases hp : pid' = pid
          · rw [if_pos hp] at hget
            cases hget
          · rw [if_neg hp] at hget
            have hih := ih h pid ca hget
            exact ⟨hih.1, by simpa only [copyLoop] using hih.2⟩

/-- `get_providers` never changes any object already on the heap — in
particular no part of the static `PROVIDERS` table. -/
theorem get_providers_frame (h : Heap) (md : Metadata) (a : Nat)
    (hs : (dget a h).isSome) : dget a (get_providers h md).1 = dget a h := by
  have hcl : dget a (copyLoop h (heapGet h 0)).1 = dget a h :=
    copyLoop_frame (heapGet h 0) h a hs
  have hs1 : (dget a (copyLoop h (heapGet h 0)).1).isSome := by rw [hcl]; exact hs
  have hlt : a < fresh (copyLoop h (heapGet h 0)).1 := lt_fresh_of_isSome hs1
  have hva : ¬ (fresh (copyLoop h (heapGet h 0)).1 = a) := by omega
  have h2 :
      dget a ((fresh (copyLoop h (heapGet h 0)).1, voicesSnapshot md) ::
        (copyLoop h (heapGet h 0)).1) = dget a h := by
    simp [dget, hva, hcl]
  simp only [get_providers]
  cases hm : dget "mlx-voice-clone" (copyLoop h (heapGet h 0)).2 with
  | none => simpa [hm] using h2
  | some v =>
      cases v with
      | ref ca =>
          have hspec := copyLoop_ref_spec (heapGet h 0) h "mlx-voice-clone" ca hm
          have hane : a ≠ ca := by
            intro hcontra
            rw [hcontra] at hs
            rw [hspec.1] at hs
            simp at hs
          simp only [hm, heapSet]
          rw [dget_dset_ne _ _ hane, h2]
      | str s => simpa [hm] using h2
      | bool b => simpa [hm] using h2

/-- Abstract final step of `get_providers`: writing the fresh snapshot dict
into the cloning provider's copy makes the response expose exactly that
snapshot. -/
theorem mutate_step (r1 : Heap) (resp : List (String × PyVal)) (md : Metadata) (ca : Nat)
    (hm : dget "mlx-voice-clone" resp = some (.ref ca))
    (hca : (dget ca r1).isSome) :
    cloneVoicesOf
      (heapSet ((fresh r1, voicesSnapshot md) :: r1) ca
        (dset "voices" (PyVal.ref (fresh r1))
          (heapGet ((fresh r1, voicesSnapshot md) :: r1) ca)), resp) =
      some (voicesSnapshot md) := by
  have hlt : ca < fresh r1 := lt_fresh_of_isSome hca
  have hvane : ¬ (fresh r1 = ca) := by omega
  have h1 : heapGet
      (heapSet ((fresh r1, voicesSnapshot md) :: r1) ca
        (dset "voices" (PyVal.ref (fresh r1))
          (heapGet ((fresh r1, voicesSnapshot md) :: r1) ca))) ca =
      dset "voices" (PyVal.ref (fresh r1))
        (heapGet ((fresh r1, voicesSnapshot md) :: r1) ca) := by
    simp [heapGet, heapSet, dget_dset_same]
  unfold cloneVoicesOf
  simp only [hm, h1, dget_dset_same]
  simp only [heapGet, heapSet]
  rw [dget_dset_ne _ _ hvane]
  simp [dget]

/-- When the copy loop produced a reference for the cloning provider, the
response exposes exactly the fresh metadata snapshot as that provider's
voices dict. -/
theorem get_providers_clone_branch (h : Heap) (md : Metadata) (ca : Nat)
    (hm : dget "mlx-voice-clone" (copyLoop h (heapGet h 0)).2 = some (.ref ca)) :
    cloneVoicesOf (get_providers h md) = some (voicesSnapshot md) := by
  have hspec := copyLoop_ref_spec (heapGet h 0) h "mlx-voice-clone" ca hm
  have hgp : get_providers h md =
      (heapSet ((fresh (copyLoop h (heapGet h 0)).1, voicesSnapshot md) ::
          (copyLoop h (heapGet h 0)).1) ca
        (dset "voices" (PyVal.ref (fresh (copyLoop h (heapGet h 0)).1))
          (heapGet ((fresh (copyLoop h (heapGet h 0)).1, voicesSnapshot md) ::
            (copyLoop h (heapGet h 0)).1) ca)),
       (copyLoop h (heapGet h 0)).2) := by
    simp only [get_providers, hm]
  rw [hgp]
  exact mutate_step (copyLoop h (heapGet h 0)).1 (copyLoop h (heapGet h 0)).2 md ca hm hspec.2

/-- On any heap whose address 0 holds the `PROVIDERS` root dict, a catalog
read returns exactly the current metadata snapshot as the cloning
provider's voices. -/
theorem get_providers_snapshot (h : Heap) (md : Metadata)
    (hroot : heapGet h 0 = providersRoot) :
    cloneVoicesOf (get_providers h md) = some (voicesSnapshot md) := by
  obtain ⟨v, hv⟩ : ∃ ca, dget "mlx-voice-clone" (copyLoop h (heapGet h 0)).2 =
      some (.ref ca) := by
    rw [hroot]
    exact ⟨_, rfl⟩
  exact get_providers_clone_branch h md v hv

/-- The heap part of the process state is only touched by catalog reads,
which are frame-preserving; so every originally allocated object survives
any interleaving unchanged. -/
theorem runOps_heap_frame (ops : List Op) : ∀ (s : Sys),
    (∀ a, (dget a providersHeap).isSome → dget a s.heap = dget a providersHeap) →
    ∀ a, (dget a providersHeap).isSome →
      dget a (runOps s ops).heap = dget a providersHeap := by
  induction ops with
  | nil => intro s hinv a ha; exact hinv a ha
  | cons op rest ih =>
      intro s hinv a ha
      have hstep : ∀ b, (dget b providersHeap).isSome →
          dget b (runOp s op).heap = dget b providersHeap := by
        intro b hb
        cases op with
        | readCatalog =>
            have hsome : (dget b s.heap).isSome := by rw [hinv b hb]; exact hb
            show dget b (get_providers s.heap s.reg.metadata).1 = dget b providersHeap
            rw [get_providers_frame s.heap s.reg.metadata b hsome]
            exact hinv b hb
        | doUpload hw wh v f n t => exact hinv b hb
        | doDelete v => exact hinv b hb
      show dget a (runOps (runOp s op) rest).heap = dget a providersHeap
      exact ih (runOp s op) hstep a ha

/-! ### Small behavioural helpers -/

theorem pyOrD_falsy {a : Option String} {d : String} (h : pyTruthy a = false) :
    pyOrD a d = d := by
  cases a with
  | none => rfl
  | some s =>
      simp [pyTruthy] at h
      simp [pyOrD, h]

theorem list_voices_dremove (md : Metadata) (d : Disk) (v : String) :
    (list_voices ⟨dremove v md, d⟩).filter (fun e => e.id = v) = [] := by
  induction md with
  | nil => rfl
  | cons p rest ih =>
      obtain ⟨k, e⟩ := p
      by_cases hk : k = v
      · simpa [dremove, list_voices, hk] using ih
      · simpa [dremove, list_voices, hk] using ih

theorem dget_voicesSnapshot_dremove (md : Metadata) (v : String) :
    dget v (voicesSnapshot (dremove v md)) = none := by
  induction md with
  | nil => rfl
  | cons p rest ih =>
      obtain ⟨k, e⟩ := p
      by_cases hk : k = v
      · simpa [dremove, voicesSnapshot, hk] using ih
      · simpa [dremove, voicesSnapshot, dget, hk] using ih

/-! ### Claims -/

/-- C10: upload fails with a 400 "File must be an audio file" error whenever
the declared content type is missing or not an audio type, and with a 400
"File too large" error whenever the payload strictly exceeds
`MAX_UPLOAD_SIZE` (25 × 1024 × 1024 bytes); in both rejection cases the
returned state is exactly the input state: nothing is written to disk and
the metadata store is unchanged. -/
theorem c10_upload_rejection (hasW : Bool) (wh : String → String) (vid : String)
    (st : RegState) (file : UploadFile) (name transcript : String) :
    (ctOk file.content_type = false →
      upload_voice hasW wh vid st file name transcript =
        (st, .error ⟨400, "File must be an audio file"⟩)) ∧
    (ctOk file.content_type = true → file.content.length > MAX_UPLOAD_SIZE →
      upload_voice hasW wh vid st file name transcript =
        (st, .error ⟨400, "File too large (max 25 MB)"⟩)) := by
  constructor
  · intro hct
    simp [upload_voice, hct]
  · intro hct hlen
    simp [upload_voice, hct, hlen]

/-- C10 witness: a `text/plain` upload and an oversized audio upload are
both rejected without touching the empty state. -/
theorem c10_upload_rejection_witness :
    upload_voice true (fun _ => "") "abc" ⟨[], []⟩
        ⟨some "text/plain", none, [0]⟩ "N" "T" =
      (⟨[], []⟩, .error ⟨400, "File must be an audio file"⟩) ∧
    upload_voice true (fun _ => "") "abc" ⟨[], []⟩
        ⟨some "audio/wav", none, List.replicate (MAX_UPLOAD_SIZE + 1) 0⟩ "N" "T" =
      (⟨[], []⟩, .error ⟨400, "File too large (max 25 MB)"⟩) :=
  ⟨(c10_upload_rejection true (fun _ => "") "abc" ⟨[], []⟩
      ⟨some "text/plain", none, [0]⟩ "N" "T").1 rfl,
   (c10_upload_rejection true (fun _ => "") "abc" ⟨[], []⟩
      ⟨some "audio/wav", none, List.replicate (MAX_UPLOAD_SIZE + 1) 0⟩ "N" "T").2 rfl
     (by simp)⟩

/-- C9: the stored extension follows the priority order of the spec
(`audio/mpeg → mp3`, else `audio/mp4 → m4a`, else lowercased last-dot
suffix of a dotted declared filename, else `wav`), and on success the audio
is stored on disk under `voice_id.ext`, which is also the filename recorded
in the metadata entry and returned to the caller. -/
theorem c9_extension_rule (hasW : Bool) (wh : String → String) (vid : String)
    (st : RegState) (file : UploadFile) (name transcript : String) :
    extFor file = specExt file ∧
    ∀ st' resp, upload_voice hasW wh vid st file name transcript = (st', .ok resp) →
      resp.filename = vid ++ "." ++ extFor file ∧
      dget vid st'.metadata =
        some ⟨name, resp.transcript, vid ++ "." ++ extFor file, file.filename⟩ ∧
      dget (vid ++ "." ++ extFor file) st'.disk = some file.content := by
  constructor
  · unfold extFor specExt
    by_cases h1 : file.content_type = some "audio/mpeg"
    · simp [h1]
    · by_cases h2 : file.content_type = some "audio/mp4"
      · simp [h1, h2]
      · simp only [h1, h2, if_false]
        cases file.filename with
        | none => rfl
        | some fn =>
            by_cases hfn : fn = ""
            · subst hfn
              simp [containsDot]
            · simp [hfn]
  · intro st' resp heq
    by_cases hct : ctOk file.content_type
    case neg => simp [upload_voice, hct] at heq
    by_cases hlen : file.content.length > MAX_UPLOAD_SIZE
    case pos => simp [upload_voice, hct, hlen] at heq
    by_cases ht : pyStrip transcript = ""
    · cases hW : hasW with
      | false => simp [upload_voice, hct, hlen, ht, transcribe_audio, hW] at heq
      | true =>
          simp [upload_voice, hct, hlen, ht, transcribe_audio, hW] at heq
          obtain ⟨h1, h2⟩ := heq
          subst h1
          subst h2
          exact ⟨rfl, by simp [dget_dset_same], by simp [dget_dset_same]⟩
    · simp [upload_voice, hct, hlen, ht] at heq
      obtain ⟨h1, h2⟩ := heq
      subst h1
      subst h2
      exact ⟨rfl, by simp [dget_dset_same], by simp [dget_dset_same]⟩

/-- C9 witness: an `audio/ogg` upload with filename `Sample.OGG` stores and
returns `voice_id.ogg`. -/
theorem c9_extension_rule_witness :
    extFor ⟨some "audio/ogg", some "Sample.OGG", [7]⟩ =
      specExt ⟨some "audio/ogg", some "Sample.OGG", [7]⟩ ∧
    ("ab12cd34ef56.ogg" : String) = "ab12cd34ef56" ++ "." ++
      extFor ⟨some "audio/ogg", some "Sample.OGG", [7]⟩ ∧
    dget "ab12cd34ef56"
        (upload_voice true (fun _ => "") "ab12cd34ef56" ⟨[], []⟩
          ⟨some "audio/ogg", some "Sample.OGG", [7]⟩ "N" "T").1.metadata =
      some ⟨"N", "T", "ab12cd34ef56.ogg", some "Sample.OGG"⟩ ∧
    dget "ab12cd34ef56.ogg"
        (upload_voice true (fun _ => "") "ab12cd34ef56" ⟨[], []⟩
          ⟨some "audio/ogg", some "Sample.OGG", [7]⟩ "N" "T").1.disk = some [7] := by
  have h := c9_extension_rule true (fun _ => "") "ab12cd34ef56" ⟨[], []⟩
    ⟨some "audio/ogg", some "Sample.OGG", [7]⟩ "N" "T"
  have h2 := h.2 (upload_voice true (fun _ => "") "ab12cd34ef56" ⟨[], []⟩
      ⟨some "audio/ogg", some "Sample.OGG", [7]⟩ "N" "T").1
    ⟨"ab12cd34ef56", "N", "ab12cd34ef56.ogg", "T"⟩ rfl
  exact ⟨h.1, by exact h2.1 ▸ rfl, h2.2.1, h2.2.2⟩

/-- C3 counterexample: uploading with transcript `" hello"` (non-whitespace
but untrimmed) from an empty registry stores and lists transcript
`"hello"`, which differs from the supplied `T`, so the listed entry's
transcript does not equal `T` as the claim states. -/
theorem c3_counterexample :
    (list_voices (upload_voice true (fun _ => "") "abc123def456" ⟨[], []⟩
        ⟨some "audio/mpeg", some "a.mp3", [0, 1]⟩ "N" " hello").1).map
      (fun e => e.transcript) = ["hello"] ∧
    ¬ (("hello" : String) = " hello") := by
  exact ⟨rfl, by decide⟩

/-- C3 (amended): uploading name `N`, transcript `T` (non-whitespace) from
an empty registry and then listing yields exactly one entry whose id is the
returned `voice_id`, whose name is `N` and whose transcript is the
*trimmed* `T` (`T.strip()`), which is also the transcript in the upload
response. -/
theorem c3_upload_list_roundtrip (hasW : Bool) (wh : String → String) (vid : String)
    (d : Disk) (file : UploadFile) (N T : String)
    (hct : ctOk file.content_type = true)
    (hlen : file.content.length ≤ MAX_UPLOAD_SIZE)
    (hT : pyStrip T ≠ "") :
    (upload_voice hasW wh vid ⟨[], d⟩ file N T).2 =
      .ok ⟨vid, N, vid ++ "." ++ extFor file, pyStrip T⟩ ∧
    list_voices (upload_voice hasW wh vid ⟨[], d⟩ file N T).1 =
      [⟨vid, N, pyStrip T, vid ++ "." ++ extFor file⟩] := by
  have hlen' : ¬ (file.content.length > MAX_UPLOAD_SIZE) := by omega
  constructor <;> simp [upload_voice, hct, hlen', hT, list_voices, dset]

/-- C3 witness: concrete upload/list round trip with an already-trimmed
transcript. -/
theorem c3_upload_list_roundtrip_witness :
    (upload_voice true (fun _ => "") "abc123def456" ⟨[], []⟩
        ⟨some "audio/mpeg", some "a.mp3", [0, 1]⟩ "N" "hello there").2 =
      .ok ⟨"abc123def456", "N", "abc123def456.mp3", "hello there"⟩ ∧
    list_voices (upload_voice true (fun _ => "") "abc123def456" ⟨[], []⟩
        ⟨some "audio/mpeg", some "a.mp3", [0, 1]⟩ "N" "hello there").1 =
      [⟨"abc123def456", "N", "hello there", "abc123def456.mp3"⟩] :=
  c3_upload_list_roundtrip true (fun _ => "") "abc123def456" []
    ⟨some "audio/mpeg", some "a.mp3", [0, 1]⟩ "N" "hello there"
    rfl (by decide) (by decide)

/-- C1 counterexample: with no transcript supplied and no transcription
capability, the upload fails with the `TranscriptUnavailable` error *after*
writing the audio file: the final state has the file on disk and an empty
metadata store, i.e. an orphaned file with no entry — refuting "file and
metadata entry are created together or not at all". -/
theorem c1_counterexample :
    (upload_voice false (fun _ => "") "abc123def456" ⟨[], []⟩
        ⟨some "audio/wav", some "s.wav", [0]⟩ "N" "").1 =
      ⟨[], [("abc123def456.wav", [0])]⟩ ∧
    (upload_voice false (fun _ => "") "abc123def456" ⟨[], []⟩
        ⟨some "audio/wav", some "s.wav", [0]⟩ "N" "").2 =
      .error ⟨400,
        "Transcript required. Install mlx-whisper for auto-transcription: uv pip install mlx-whisper"⟩ := by
  exact ⟨rfl, rfl⟩

/-- C1 (amended): when the supplied transcript is empty after trimming and
no transcription capability is configured, the upload fails with the
`TranscriptUnavailable` error, the metadata store is unchanged, but the
audio file has already been written and remains on disk (an orphaned file
without a metadata entry). -/
theorem c1_upload_orphan (wh : String → String) (vid : String) (st : RegState)
    (file : UploadFile) (name T : String)
    (hct : ctOk file.content_type = true)
    (hlen : file.content.length ≤ MAX_UPLOAD_SIZE)
    (hT : pyStrip T = "") :
    upload_voice false wh vid st file name T =
      (⟨st.metadata, dset (vid ++ "." ++ extFor file) file.content st.disk⟩,
       .error ⟨400,
         "Transcript required. Install mlx-whisper for auto-transcription: uv pip install mlx-whisper"⟩) := by
  have hlen' : ¬ (file.content.length > MAX_UPLOAD_SIZE) := by omega
  simp [upload_voice, hct, hlen', hT, transcribe_audio]

/-- C1 witness: the orphan-file outcome at a concrete input. -/
theorem c1_upload_orphan_witness :
    upload_voice false (fun _ => "") "abc123def456" ⟨[], []⟩
        ⟨some "audio/wav", some "s.wav", [0]⟩ "N" "  " =
      (⟨[], [("abc123def456.wav", [0])]⟩,
       .error ⟨400,
         "Transcript required. Install mlx-whisper for auto-transcription: uv pip install mlx-whisper"⟩) :=
  c1_upload_orphan (fun _ => "") "abc123def456" ⟨[], []⟩
    ⟨some "audio/wav", some "s.wav", [0]⟩ "N" "  " rfl (by decide) (by decide)

/-- C4: after a successful upload of a fresh voice id, deleting that id
succeeds and afterwards the id is absent from the voice list, absent from
the cloning provider's dynamic voices map in the catalog response, and the
backing audio file is gone from disk; deleting an id absent from the
registry fails with the 404 "Voice not found" error and leaves the state
unchanged. -/
theorem c4_delete_consistency (hasW : Bool) (wh : String → String) (vid : String)
    (st : RegState) (file : UploadFile) (N T : String)
    (hct : ctOk file.content_type = true)
    (hlen : file.content.length ≤ MAX_UPLOAD_SIZE)
    (hT : pyStrip T ≠ "") :
    (∀ st1, (upload_voice hasW wh vid st file N T).1 = st1 →
      (delete_voice st1 vid).2 = .ok vid ∧
      (list_voices (delete_voice st1 vid).1).filter (fun e => e.id = vid) = [] ∧
      cloneVoicesOf (get_providers providersHeap (delete_voice st1 vid).1.metadata) =
        some (voicesSnapshot (delete_voice st1 vid).1.metadata) ∧
      dget vid (voicesSnapshot (delete_voice st1 vid).1.metadata) = none ∧
      dget (vid ++ "." ++ extFor file) (delete_voice st1 vid).1.disk = none) ∧
    (∀ v, dget v st.metadata = none →
      delete_voice st v = (st, .error ⟨404, "Voice not found"⟩)) := by
  have hlen' : ¬ (file.content.length > MAX_UPLOAD_SIZE) := by omega
  constructor
  · intro st1 hst1
    have hup : (upload_voice hasW wh vid st file N T).1 =
        ⟨dset vid ⟨N, pyStrip T, vid ++ "." ++ extFor file, file.filename⟩ st.metadata,
         dset (vid ++ "." ++ extFor file) file.content st.disk⟩ := by
      simp [upload_voice, hct, hlen', hT]
    rw [hup] at hst1
    subst hst1
    have hdel : delete_voice
        ⟨dset vid ⟨N, pyStrip T, vid ++ "." ++ extFor file, file.filename⟩ st.metadata,
         dset (vid ++ "." ++ extFor file) file.content st.disk⟩ vid =
        (⟨dremove vid (dset vid ⟨N, pyStrip T, vid ++ "." ++ extFor file, file.filename⟩
            st.metadata),
          dremove (vid ++ "." ++ extFor file)
            (dset (vid ++ "." ++ extFor file) file.content st.disk)⟩, .ok vid) := by
      simp [delete_voice, dget_dset_same]
    rw [hdel]
    refine ⟨rfl, list_voices_dremove _ _ _, ?_, dget_voicesSnapshot_dremove _ _,
      dget_dremove_same _ _⟩
    exact get_providers_snapshot providersHeap _ rfl
  · intro v hv
    simp [delete_voice, hv]

/-- C4 witness: upload then delete of a concrete voice sample. -/
theorem c4_delete_consistency_witness :
    ((delete_voice (upload_voice true (fun _ => "") "abc123def456" ⟨[], []⟩
        ⟨some "audio/mpeg", some "a.mp3", [5]⟩ "N" "hi").1 "abc123def456").2 = .ok "abc123def456" ∧
      (list_voices (delete_voice (upload_voice true (fun _ => "") "abc123def456" ⟨[], []⟩
          ⟨some "audio/mpeg", some "a.mp3", [5]⟩ "N" "hi").1 "abc123def456").1).filter
        (fun e => e.id = "abc123def456") = [] ∧
      cloneVoicesOf (get_providers providersHeap
          (delete_voice (upload_voice true (fun _ => "") "abc123def456" ⟨[], []⟩
            ⟨some "audio/mpeg", some "a.mp3", [5]⟩ "N" "hi").1 "abc123def456").1.metadata) =
        some (voicesSnapshot (delete_voice (upload_voice true (fun _ => "") "abc123def456" ⟨[], []⟩
          ⟨some "audio/mpeg", some "a.mp3", [5]⟩ "N" "hi").1 "abc123def456").1.metadata) ∧
      dget "abc123def456" (voicesSnapshot
          (delete_voice (upload_voice true (fun _ => "") "abc123def456" ⟨[], []⟩
            ⟨some "audio/mpeg", some "a.mp3", [5]⟩ "N" "hi").1 "abc123def456").1.metadata) = none ∧
      dget ("abc123def456" ++ "." ++ extFor ⟨some "audio/mpeg", some "a.mp3", [5]⟩)
        (delete_voice (upload_voice true (fun _ => "") "abc123def456" ⟨[], []⟩
          ⟨some "audio/mpeg", some "a.mp3", [5]⟩ "N" "hi").1 "abc123def456").1.disk = none) ∧
    delete_voice ⟨[], []⟩ "nosuchvoice" = (⟨[], []⟩, .error ⟨404, "Voice not found"⟩) := by
  have h := c4_delete_consistency true (fun _ => "") "abc123def456" ⟨[], []⟩
    ⟨some "audio/mpeg", some "a.mp3", [5]⟩ "N" "hi" rfl (by decide) (by decide)
  exact ⟨h.1 _ rfl, h.2 "nosuchvoice" rfl⟩

/-- C2: `/api/tts` validation runs in order, each failure before any
downstream call (the issued-call log stays empty): empty/whitespace-only
text fails 400; else a provider id absent from the `PROVIDERS` table fails
400 without reaching any dispatch branch; else a provider whose catalog
entry has `requires_api_key = true` with neither a request key nor a
process-configured key fails 400 with the missing-credential error and no
network call. -/
theorem c2_tts_validation_order (env : Env) (st : RegState)
    (http : DownstreamCall → HttpOutcome) (req : TTSRequest) :
    (pyStrip req.text = "" →
      text_to_speech providersHeap env st http req =
        (.error ⟨400, "Text cannot be empty"⟩, [])) ∧
    (pyStrip req.text ≠ "" → dget req.provider providersRoot = none →
      text_to_speech providersHeap env st http req =
        (.error ⟨400, "Unknown provider: " ++ req.provider⟩, [])) ∧
    (∀ a, pyStrip req.text ≠ "" →
      dget req.provider providersRoot = some (.ref a) →
      dget "requires_api_key" (heapGet providersHeap a) = some (.bool true) →
      pyTruthy req.api_key = false →
      env.ELEVENLABS_API_KEY = "" → env.OPENAI_API_KEY = "" →
      (text_to_speech providersHeap env st http req).2 = [] ∧
      ((text_to_speech providersHeap env st http req).1 =
          .error ⟨400, "ElevenLabs API key required"⟩ ∨
        (text_to_speech providersHeap env st http req).1 =
          .error ⟨400, "OpenAI API key required"⟩)) := by
  refine ⟨?_, ?_, ?_⟩
  · intro hempty
    simp [text_to_speech, hempty]
  · intro hne hp
    simp only [providersRoot, dget] at hp
    simp [text_to_speech, hne, heapGet, providersHeap, dget, hp]
  · intro a hne hp hreq hk he ho
    simp only [providersRoot, dget] at hp
    split_ifs at hp with h1 h2 h3 h4
    · simp only [Option.some.injEq, PyVal.ref.injEq] at hp
      subst hp
      exact absurd hreq (by decide)
    · have hp' : req.provider = "elevenlabs" := h2.symm
      have hrun : text_to_speech providersHeap env st http req =
          (.error ⟨400, "ElevenLabs API key required"⟩, []) := by
        simp [text_to_speech, hne, hp', heapGet, providersHeap, dget, generate_elevenlabs,
          pyOrD_falsy hk, he, finishTTS]
      rw [hrun]
      exact ⟨rfl, Or.inl rfl⟩
    · have hp' : req.provider = "openai" := h3.symm
      have hrun : text_to_speech providersHeap env st http req =
          (.error ⟨400, "OpenAI API key required"⟩, []) := by
        simp [text_to_speech, hne, hp', heapGet, providersHeap, dget, generate_openai,
          pyOrD_falsy hk, ho, finishTTS]
      rw [hrun]
      exact ⟨rfl, Or.inr rfl⟩
    · simp only [Option.some.injEq, PyVal.ref.injEq] at hp
      subst hp
      exact absurd hreq (by decide)

/-- C2 witness: the three validation failures at concrete requests. -/
theorem c2_tts_validation_order_witness :
    text_to_speech providersHeap ⟨"", ""⟩ ⟨[], []⟩ (fun _ => .timeout)
        ⟨"   ", "elevenlabs", "m", none, none, none⟩ =
      (.error ⟨400, "Text cannot be empty"⟩, []) ∧
    text_to_speech providersHeap ⟨"", ""⟩ ⟨[], []⟩ (fun _ => .timeout)
        ⟨"hi", "nope", "m", none, none, none⟩ =
      (.error ⟨400, "Unknown provider: " ++ "nope"⟩, []) ∧
    (text_to_speech providersHeap ⟨"", ""⟩ ⟨[], []⟩ (fun _ => .timeout)
        ⟨"hi", "elevenlabs", "m", none, none, none⟩).2 = [] ∧
    ((text_to_speech providersHeap ⟨"", ""⟩ ⟨[], []⟩ (fun _ => .timeout)
        ⟨"hi", "elevenlabs", "m", none, none, none⟩).1 =
        .error ⟨400, "ElevenLabs API key required"⟩ ∨
      (text_to_speech providersHeap ⟨"", ""⟩ ⟨[], []⟩ (fun _ => .timeout)
        ⟨"hi", "elevenlabs", "m", none, none, none⟩).1 =
        .error ⟨400, "OpenAI API key required"⟩) :=
  ⟨(c2_tts_validation_order ⟨"", ""⟩ ⟨[], []⟩ (fun _ => .timeout)
      ⟨"   ", "elevenlabs", "m", none, none, none⟩).1 (by decide),
   (c2_tts_validation_order ⟨"", ""⟩ ⟨[], []⟩ (fun _ => .timeout)
      ⟨"hi", "nope", "m", none, none, none⟩).2.1 (by decide) rfl,
   (c2_tts_validation_order ⟨"", ""⟩ ⟨[], []⟩ (fun _ => .timeout)
      ⟨"hi", "elevenlabs", "m", none, none, none⟩).2.2 4 (by decide) rfl rfl rfl rfl rfl⟩

/-- C5: for the `mlx-voice-clone` provider, with the selector being
`voice_id or voice` of the request (Python falsiness): a missing/empty
selector fails 400 "Voice ID required for voice cloning"; a selector with
no registry entry fails 404 "Voice not found"; an entry whose backing file
is absent fails 404 "Voice audio file not found"; an entry whose transcript
is empty fails 400 "Voice transcript is required for cloning" — in every
case with no downstream call issued. -/
theorem c5_clone_validation (env : Env) (st : RegState) (http : DownstreamCall → HttpOutcome)
    (req : TTSRequest) (hp : req.provider = "mlx-voice-clone")
    (hne : pyStrip req.text ≠ "") :
    (pyTruthy (pyOr req.voice_id req.voice) = false →
      text_to_speech providersHeap env st http req =
        (.error ⟨400, "Voice ID required for voice cloning"⟩, [])) ∧
    (∀ v, pyOr req.voice_id req.voice = some v → v ≠ "" →
      (dget v st.metadata = none →
        text_to_speech providersHeap env st http req =
          (.error ⟨404, "Voice not found"⟩, [])) ∧
      (∀ info, dget v st.metadata = some info →
        (dget info.filename st.disk = none →
          text_to_speech providersHeap env st http req =
            (.error ⟨404, "Voice audio file not found"⟩, [])) ∧
        ((dget info.filename st.disk).isSome → info.transcript = "" →
          text_to_speech providersHeap env st http req =
            (.error ⟨400, "Voice transcript is required for cloning"⟩, [])))) := by
  constructor
  · intro hsel
    simp [text_to_speech, hne, hp, heapGet, providersHeap, dget,
      generate_mlx_voice_clone, hsel, finishTTS]
  · intro v hsel hv
    constructor
    · intro hnone
      simp [text_to_speech, hne, hp, heapGet, providersHeap, dget,
        generate_mlx_voice_clone, hsel, pyTruthy, hv, hnone, finishTTS]
    · intro info hsome
      constructor
      · intro hfile
        simp [text_to_speech, hne, hp, heapGet, providersHeap, dget,
          generate_mlx_voice_clone, hsel, pyTruthy, hv, hsome, hfile, finishTTS]
      · intro hfile htrans
        obtain ⟨b, hb⟩ := Option.isSome_iff_exists.mp hfile
        simp [text_to_speech, hne, hp, heapGet, providersHeap, dget,
          generate_mlx_voice_clone, hsel, pyTruthy, hv, hsome, hb, htrans, finishTTS]

/-- C5 witness: missing selector, unknown selector and transcript-less
entry at concrete inputs. -/
theorem c5_clone_validation_witness :
    text_to_speech providersHeap ⟨"", ""⟩ ⟨[], []⟩ (fun _ => .timeout)
        ⟨"hi", "mlx-voice-clone", "m", none, none, none⟩ =
      (.error ⟨400, "Voice ID required for voice cloning"⟩, []) ∧
    text_to_speech providersHeap ⟨"", ""⟩ ⟨[], []⟩ (fun _ => .timeout)
        ⟨"hi", "mlx-voice-clone", "m", none, none, some "ghost"⟩ =
      (.error ⟨404, "Voice not found"⟩, []) ∧
    text_to_speech providersHeap ⟨"", ""⟩
        ⟨[("v1", ⟨"A", "", "v1.wav", none⟩)], [("v1.wav", [0])]⟩ (fun _ => .timeout)
        ⟨"hi", "mlx-voice-clone", "m", none, none, some "v1"⟩ =
      (.error ⟨400, "Voice transcript is required for cloning"⟩, []) :=
  ⟨(c5_clone_validation ⟨"", ""⟩ ⟨[], []⟩ (fun _ => .timeout)
      ⟨"hi", "mlx-voice-clone", "m", none, none, none⟩ rfl (by decide)).1 rfl,
   ((c5_clone_validation ⟨"", ""⟩ ⟨[], []⟩ (fun _ => .timeout)
      ⟨"hi", "mlx-voice-clone", "m", none, none, some "ghost"⟩ rfl (by decide)).2
     "ghost" rfl (by decide)).1 rfl,
   (((c5_clone_validation ⟨"", ""⟩
      ⟨[("v1", ⟨"A", "", "v1.wav", none⟩)], [("v1.wav", [0])]⟩ (fun _ => .timeout)
      ⟨"hi", "mlx-voice-clone", "m", none, none, some "v1"⟩ rfl (by decide)).2
     "v1" rfl (by decide)).2 ⟨"A", "", "v1.wav", none⟩ rfl).2 rfl rfl⟩

/-- C7: a successful `/api/tts` response carries exactly the downstream
bytes with declared type `audio/mpeg` for `mlx-audio`, `elevenlabs` and
`mlx-voice-clone` and `audio/wav` for `openai` (whose downstream request
carries `response_format = wav`); in particular a stub answering 200 with
the bytes of `b"audio"` yields status 200, those bytes, `audio/mpeg`. -/
theorem c7_media_types (env : Env) (st : RegState) (req : TTSRequest)
    (body : Bytes) (t : String) (hne : pyStrip req.text ≠ "") :
    (req.provider = "mlx-audio" →
      (text_to_speech providersHeap env st (fun _ => .resp 200 body t) req).1 =
        .ok ⟨200, body, "audio/mpeg", "mp3"⟩) ∧
    (req.provider = "elevenlabs" → pyOrD req.api_key env.ELEVENLABS_API_KEY ≠ "" →
      (text_to_speech providersHeap env st (fun _ => .resp 200 body t) req).1 =
        .ok ⟨200, body, "audio/mpeg", "mp3"⟩) ∧
    (req.provider = "openai" → pyOrD req.api_key env.OPENAI_API_KEY ≠ "" →
      (text_to_speech providersHeap env st (fun _ => .resp 200 body t) req).1 =
        .ok ⟨200, body, "audio/wav", "wav"⟩ ∧
      (text_to_speech providersHeap env st (fun _ => .resp 200 body t) req).2 =
        [⟨"https://api.openai.com/v1/audio/speech",
          [("Authorization", "Bearer " ++ pyOrD req.api_key env.OPENAI_API_KEY),
           ("Content-Type", "application/json")],
          [("model", req.model), ("input", req.text),
           ("voice", pyOrD req.voice "alloy"), ("response_format", "wav")], 120⟩]) ∧
    (∀ v info, req.provider = "mlx-voice-clone" →
      pyOr req.voice_id req.voice = some v → v ≠ "" →
      dget v st.metadata = some info →
      (dget info.filename st.disk).isSome → info.transcript ≠ "" →
      (text_to_speech providersHeap env st (fun _ => .resp 200 body t) req).1 =
        .ok ⟨200, body, "audio/mpeg", "mp3"⟩) ∧
    text_to_speech providersHeap env st
        (fun _ => .resp 200 [97, 117, 100, 105, 111] "audio")
        ⟨"Hello world", "mlx-audio", req.model, req.voice, req.api_key, req.voice_id⟩ =
      (.ok ⟨200, [97, 117, 100, 105, 111], "audio/mpeg", "mp3"⟩,
       [⟨MLX_AUDIO_URL ++ "/v1/audio/speech", [],
         [("model", req.model), ("input", "Hello world"),
          ("voice", pyOrD req.voice "af_heart")], 120⟩]) := by
  refine ⟨?_, ?_, ?_, ?_, ?_⟩
  · intro hp
    simp [text_to_speech, hne, hp, heapGet, providersHeap, dget,
      generate_mlx_audio, finishTTS]
  · intro hp hk
    simp [text_to_speech, hne, hp, heapGet, providersHeap, dget,
      generate_elevenlabs, hk, finishTTS]
  · intro hp hk
    constructor <;>
      simp [text_to_speech, hne, hp, heapGet, providersHeap, dget,
        generate_openai, hk, finishTTS]
  · intro v info hp hsel hv hsome hfile htrans
    obtain ⟨b, hb⟩ := Option.isSome_iff_exists.mp hfile
    simp [text_to_speech, hne, hp, heapGet, providersHeap, dget,
      generate_mlx_voice_clone, hsel, pyTruthy, hv, hsome, hb, htrans, finishTTS]
  · simp [text_to_speech, pyStrip, heapGet, providersHeap, dget,
      generate_mlx_audio, finishTTS]

/-- C7 witness: the stubbed end-to-end scenario and a cloned-voice success
at concrete inputs. -/
theorem c7_media_types_witness :
    text_to_speech providersHeap ⟨"", ""⟩ ⟨[], []⟩
        (fun _ => .resp 200 [97, 117, 100, 105, 111] "audio")
        ⟨"Hello world", "mlx-audio", "m", none, none, none⟩ =
      (.ok ⟨200, [97, 117, 100, 105, 111], "audio/mpeg", "mp3"⟩,
       [⟨MLX_AUDIO_URL ++ "/v1/audio/speech", [],
         [("model", "m"), ("input", "Hello world"), ("voice", pyOrD none "af_heart")],
         120⟩]) ∧
    (text_to_speech providersHeap ⟨"", ""⟩
        ⟨[("v1", ⟨"A", "ref text", "v1.wav", none⟩)], [("v1.wav", [0])]⟩
        (fun _ => .resp 200 [9] "ok")
        ⟨"hi", "mlx-voice-clone", "m", none, none, some "v1"⟩).1 =
      .ok ⟨200, [9], "audio/mpeg", "mp3"⟩ :=
  ⟨(c7_media_types ⟨"", ""⟩ ⟨[], []⟩ ⟨"zzz", "mlx-audio", "m", none, none, none⟩
      [0] "x" (by decide)).2.2.2.2,
   (c7_media_types ⟨"", ""⟩
      ⟨[("v1", ⟨"A", "ref text", "v1.wav", none⟩)], [("v1.wav", [0])]⟩
      ⟨"hi", "mlx-voice-clone", "m", none, none, some "v1"⟩ [9] "ok"
      (by decide)).2.2.2.1 "v1" ⟨"A", "ref text", "v1.wav", none⟩ rfl rfl (by decide)
      rfl rfl (by decide)⟩

/-- C8: every provider branch maps a downstream non-200 status to a failure
with the same status whose detail carries the downstream body text
verbatim; a downstream timeout maps to 504 and a connection failure to 503,
with the same messages regardless of the provider targeted. -/
theorem c8_error_mapping (env : Env) (st : RegState) (req : TTSRequest)
    (s : Nat) (body : Bytes) (t : String) (hs : s ≠ 200)
    (hne : pyStrip req.text ≠ "") :
    (req.provider = "mlx-audio" →
      (text_to_speech providersHeap env st (fun _ => .resp s body t) req).1 =
        .error ⟨s, "MLX-Audio error: " ++ t⟩ ∧
      (text_to_speech providersHeap env st (fun _ => .timeout) req).1 =
        .error ⟨504, "TTS generation timed out"⟩ ∧
      (text_to_speech providersHeap env st (fun _ => .connectError) req).1 =
        .error ⟨503, "Cannot connect to mlx-audio. Check your connection or API settings."⟩) ∧
    (req.provider = "elevenlabs" → pyOrD req.api_key env.ELEVENLABS_API_KEY ≠ "" →
      (text_to_speech providersHeap env st (fun _ => .resp s body t) req).1 =
        .error ⟨s, "ElevenLabs error: " ++ t⟩ ∧
      (text_to_speech providersHeap env st (fun _ => .timeout) req).1 =
        .error ⟨504, "TTS generation timed out"⟩ ∧
      (text_to_speech providersHeap env st (fun _ => .connectError) req).1 =
        .error ⟨503, "Cannot connect to elevenlabs. Check your connection or API settings."⟩) ∧
    (req.provider = "openai" → pyOrD req.api_key env.OPENAI_API_KEY ≠ "" →
      (text_to_speech providersHeap env st (fun _ => .resp s body t) req).1 =
        .error ⟨s, "OpenAI error: " ++ t⟩ ∧
      (text_to_speech providersHeap env st (fun _ => .timeout) req).1 =
        .error ⟨504, "TTS generation timed out"⟩ ∧
      (text_to_speech providersHeap env st (fun _ => .connectError) req).1 =
        .error ⟨503, "Cannot connect to openai. Check your connection or API settings."⟩) ∧
    (∀ v info, req.provider = "mlx-voice-clone" →
      pyOr req.voice_id req.voice = some v → v ≠ "" →
      dget v st.metadata = some info →
      (dget info.filename st.disk).isSome → info.transcript ≠ "" →
      (text_to_speech providersHeap env st (fun _ => .resp s body t) req).1 =
        .error ⟨s, "MLX-Audio voice clone error: " ++ t⟩ ∧
      (text_to_speech providersHeap env st (fun _ => .timeout) req).1 =
        .error ⟨504, "TTS generation timed out"⟩ ∧
      (text_to_speech providersHeap env st (fun _ => .connectError) req).1 =
        .error ⟨503, "Cannot connect to mlx-voice-clone. Check your connection or API settings."⟩) := by
  refine ⟨?_, ?_, ?_, ?_⟩
  · intro hp
    refine ⟨?_, ?_, ?_⟩ <;>
      simp [text_to_speech, hne, hp, heapGet, providersHeap, dget,
        generate_mlx_audio, hs, finishTTS]
  · intro hp hk
    refine ⟨?_, ?_, ?_⟩ <;>
      simp [text_to_speech, hne, hp, heapGet, providersHeap, dget,
        generate_elevenlabs, hk, hs, finishTTS]
  · intro hp hk
    refine ⟨?_, ?_, ?_⟩ <;>
      simp [text_to_speech, hne, hp, heapGet, providersHeap, dget,
        generate_openai, hk, hs, finishTTS]
  · intro v info hp hsel hv hsome hfile htrans
    obtain ⟨b, hb⟩ := Option.isSome_iff_exists.mp hfile
    refine ⟨?_, ?_, ?_⟩ <;>
      simp [text_to_speech, hne, hp, heapGet, providersHeap, dget,
        generate_mlx_voice_clone, hsel, pyTruthy, hv, hsome, hb, htrans, hs, finishTTS]

/-- C8 witness: the stub-500 scenario of the spec plus timeout/connect
normalization on the local provider. -/
theorem c8_error_mapping_witness :
    (text_to_speech providersHeap ⟨"", ""⟩ ⟨[], []⟩ (fun _ => .resp 500 [] "boom")
        ⟨"Hello world", "mlx-audio", "m", none, none, none⟩).1 =
      .error ⟨500, "MLX-Audio error: " ++ "boom"⟩ ∧
    (text_to_speech providersHeap ⟨"", ""⟩ ⟨[], []⟩ (fun _ => .timeout)
        ⟨"Hello world", "mlx-audio", "m", none, none, none⟩).1 =
      .error ⟨504, "TTS generation timed out"⟩ ∧
    (text_to_speech providersHeap ⟨"", ""⟩ ⟨[], []⟩ (fun _ => .connectError)
        ⟨"Hello world", "mlx-audio", "m", none, none, none⟩).1 =
      .error ⟨503, "Cannot connect to mlx-audio. Check your connection or API settings."⟩ :=
  (c8_error_mapping ⟨"", ""⟩ ⟨[], []⟩ ⟨"Hello world", "mlx-audio", "m", none, none, none⟩
    500 [] "boom" (by decide) (by decide)).1 rfl

/-- C6: catalog reads never mutate the static `PROVIDERS` objects — after
any interleaving of reads, uploads and deletes every originally allocated
dict (root, configs, models, voices, including the statically empty clone
voices dict at address 12) is unchanged — and each read's response exposes
as the cloning provider's voices exactly the snapshot of the metadata store
at that call (no caching). -/
theorem c6_catalog_frame (st0 : RegState) (ops : List Op) :
    (∀ a, (dget a providersHeap).isSome →
      dget a (runOps ⟨providersHeap, st0⟩ ops).heap = dget a providersHeap) ∧
    heapGet (runOps ⟨providersHeap, st0⟩ ops).heap 12 = [] ∧
    (∀ md, cloneVoicesOf (get_providers (runOps ⟨providersHeap, st0⟩ ops).heap md) =
      some (voicesSnapshot md)) := by
  have hframe := runOps_heap_frame ops ⟨providersHeap, st0⟩ (fun a _ => rfl)
  refine ⟨hframe, ?_, ?_⟩
  · have h12 := hframe 12 (by decide)
    simp only [heapGet, h12]
    rfl
  · intro md
    apply get_providers_snapshot
    have h0 := hframe 0 (by decide)
    simp only [heapGet, h0]
    rfl

/-- C6 witness: one catalog read between an upload and a delete leaves the
table intact and reports the current registry. -/
theorem c6_catalog_frame_witness :
    dget 12 (runOps ⟨providersHeap, ⟨[], []⟩⟩
        [Op.doUpload true (fun _ => "") "v1" ⟨some "audio/wav", none, [0]⟩ "A" "t",
         Op.readCatalog, Op.doDelete "v1"]).heap = dget 12 providersHeap ∧
    heapGet (runOps ⟨providersHeap, ⟨[], []⟩⟩
        [Op.doUpload true (fun _ => "") "v1" ⟨some "audio/wav", none, [0]⟩ "A" "t",
         Op.readCatalog, Op.doDelete "v1"]).heap 12 = [] ∧
    cloneVoicesOf (get_providers (runOps ⟨providersHeap, ⟨[], []⟩⟩
        [Op.doUpload true (fun _ => "") "v1" ⟨some "audio/wav", none, [0]⟩ "A" "t",
         Op.readCatalog, Op.doDelete "v1"]).heap
        [("v2", ⟨"B", "t2", "v2.wav", none⟩)]) =
      some (voicesSnapshot [("v2", ⟨"B", "t2", "v2.wav", none⟩)]) :=
  ⟨(c6_catalog_frame ⟨[], []⟩
      [Op.doUpload true (fun _ => "") "v1" ⟨some "audio/wav", none, [0]⟩ "A" "t",
       Op.readCatalog, Op.doDelete "v1"]).1 12 (by decide),
   (c6_catalog_frame ⟨[], []⟩
      [Op.doUpload true (fun _ => "") "v1" ⟨some "audio/wav", none, [0]⟩ "A" "t",
       Op.readCatalog, Op.doDelete "v1"]).2.1,
   (c6_catalog_frame ⟨[], []⟩
      [Op.doUpload true (fun _ => "") "v1" ⟨some "audio/wav", none, [0]⟩ "A" "t",
       Op.readCatalog, Op.doDelete "v1"]).2.2
     [("v2", ⟨"B", "t2", "v2.wav", none⟩)]⟩

end Narrate
